import Mathlib

/-!
Verification of the noms `url-fetch` sample (samples/go/url-fetch/fetch.go)
together with the `d.CheckErrorNoUsage` helper.

The program is a linear orchestration: resolve a dataset, read the prior
head's fetch metadata, resolve a byte source (stdin, HTTP URL, or local
file), materialize the stream as a blob, and either commit it or write it
as a loose value.  We embed `main` as a pure function from the command-line
flags and an environment record (the outcomes of every external
collaborator call: dataset resolution, head unmarshalling, HTTP request
construction and execution, file open/stat, commit-metadata construction,
and the commit itself) to a `RunResult`: how the process terminated, what
was printed to stderr and stdout, the trace of external store effects, and
the declared content length handed to the progress reporter.
-/

/-- The three fields of the head metadata structure unmarshalled at the top
of `main` (`root.Meta`): `etag,omitempty`, `file,omitempty`, `url,omitempty`.
The Go zero value is the record with all fields `""`. -/
structure MetaRoot where
  etag : String
  file : String
  url : String

/-- The zero value of `root` before unmarshalling. -/
def MetaRoot.zero : MetaRoot := ⟨"", "", ""⟩

/-- Observable fields of the HTTP response used by `main`: `resp.StatusCode`,
`resp.Status`, the `Etag` response header (`""` when absent, as
`http.Header.Get` returns), and `resp.ContentLength` (`-1` when unknown). -/
structure HttpResp where
  statusCode : Nat
  status : String
  etag : String
  contentLength : Int

/-- Result of `db.Commit`: success, the distinguished
`datas.ErrMergeNeeded` optimistic-concurrency conflict, or any other
error. -/
inductive CommitResult
  | ok
  | mergeNeeded
  | otherErr (e : String)

/-- How the process ends.  `normalReturn` is a plain `return` from `main`
(process exit status 0); `failExit` is `exit.Fail()` (non-zero status);
`chkFailure` is a `d.Chk` assertion failure, which aborts the process
abnormally (non-zero) carrying the offending error value. -/
inductive Termination
  | normalReturn
  | failExit
  | chkFailure (e : String)

/-- Externally visible interactions performed during a run: the HTTP GET
with its `If-None-Match` header (if any), and the three kinds of store
writes — blob materialization (`types.NewBlob`), a successful commit
(`db.Commit`) carrying the commit metadata key/value pairs, and a loose
value write (`db.WriteValue`). -/
inductive Effect
  | httpGet (url : String) (ifNoneMatch : Option String)
  | newBlob
  | commitOk (meta : List (String × String))
  | writeValue

/-- Whether an effect writes to the store. -/
def Effect.isStoreWrite : Effect → Bool
  | .httpGet _ _ => false
  | .newBlob => true
  | .commitOk _ => true
  | .writeValue => true

/-- The store writes contained in a trace. -/
def storeWrites (tr : List Effect) : List Effect :=
  tr.filter Effect.isStoreWrite

/-- Whether a trace contains a successful commit, i.e. whether the
dataset's head version pointer was advanced. -/
def headAdvanced (tr : List Effect) : Bool :=
  tr.any fun e =>
    match e with
    | .commitOk _ => true
    | _ => false

/-- Environment record: the outcome of every external collaborator call
`main` can make, supplied as an oracle.  `none` for an error field means
the call succeeds. -/
structure Env where
  getDatasetErr : Option String
  hasHead : Bool
  unmarshalErr : Option String
  headMeta : MetaRoot
  newRequestErr : Option String
  httpDoErr : Option String
  resp : HttpResp
  fileOpenErr : Option String
  fileStatErr : Option String
  fileSize : Int
  createMetaErr : Option String
  commitResult : CommitResult
  blobHash : String

/-- The command-line flags and the positional source argument. -/
structure Flags where
  noProgress : Bool
  performCommit : Bool
  stdin : Bool
  arg0 : String

/-- Result of a run: termination kind, stderr lines, stdout lines, the
trace of external effects in order, and the declared content length passed
to the progress reporter (`none` when the run ended before a source was
resolved). -/
structure RunResult where
  term : Termination
  stderr : List String
  stdout : List String
  trace : List Effect
  declaredLen : Option Int

/-- The `root` metadata visible after the unmarshal step succeeds: the
head's metadata when a head exists, the zero value otherwise. -/
def loadedRoot (env : Env) : MetaRoot :=
  if env.hasHead then env.headMeta else MetaRoot.zero

/-- The unmarshal step of `main`: when a head exists its value is
unmarshalled (which may fail); otherwise `root` keeps its zero value. -/
def metaRootOfHead (env : Env) : Except String MetaRoot :=
  if env.hasHead then
    match env.unmarshalErr with
    | some e => .error e
    | none => .ok env.headMeta
  else .ok MetaRoot.zero

/-- Go `strings.HasPrefix(s, p)`: whether `p` is a literal prefix of `s`,
stated over the character lists so that it evaluates by `decide`. -/
def hasPrefix (s p : String) : Bool :=
  p.data.isPrefixOf s.data

/-- The three source kinds dispatched by `main`: the `--stdin` flag wins;
otherwise the positional argument is an HTTP URL exactly when it has the
literal prefix `"http"` (`strings.HasPrefix(url, "http")`), and a local
file path in the residual case. -/
inductive SourceKind
  | stdinSrc
  | httpSrc
  | fileSrc

/-- Which source `main` reads from, given the `--stdin` flag and the
positional argument. -/
def sourceKind (stdinFlag : Bool) (arg0 : String) : SourceKind :=
  if stdinFlag then .stdinSrc
  else if hasPrefix arg0 "http" then .httpSrc
  else .fileSrc

/-- The conditional-fetch precondition header: `If-None-Match` is set to
the stored etag exactly when `root.Meta.URL == url && root.Meta.Etag != ""`. -/
def ifNoneMatchHeader (root : MetaRoot) (url : String) : Option String :=
  if root.url == url && root.etag != "" then some root.etag else none

/-- The tail of `main` after a source was resolved: materialize the blob
(`types.NewBlob`), then either commit with the collected metadata —
handling `createCommitMetaStruct` failure via `d.CheckErrorNoUsage`, the
`datas.ErrMergeNeeded` conflict via a printed message and `return`, and
any other commit error via the `d.Chk.Equal` assertion — or, with
`--commit=false`, write the blob as a loose value and print `#<hash>`. -/
def finalize (fl : Flags) (env : Env) (contentLength : Int)
    (metaInfo : List (String × String)) (pre : List Effect) : RunResult :=
  let tr := pre ++ [Effect.newBlob]
  if fl.performCommit then
    match env.createMetaErr with
    | some e => ⟨.failExit, ["error: " ++ e ++ "\n"], [], tr, some contentLength⟩
    | none =>
      match env.commitResult with
      | .ok => ⟨.normalReturn, [], [], tr ++ [.commitOk metaInfo], some contentLength⟩
      | .mergeNeeded =>
          ⟨.normalReturn, ["Could not commit, optimistic concurrency failed."], [],
            tr, some contentLength⟩
      | .otherErr e => ⟨.chkFailure e, [], [], tr, some contentLength⟩
  else
    ⟨.normalReturn, [], ["#" ++ env.blobHash ++ "\n"], tr ++ [.writeValue],
      some contentLength⟩

/-- The body of `main` from dataset resolution on (argument-count
validation having passed).  Mirrors fetch.go line by line: dataset
resolution checked by `d.CheckErrorNoUsage`; head unmarshalling; the
stdin / HTTP / file source dispatch with each error path printing to
stderr and returning; then `finalize`. -/
def runMain (fl : Flags) (env : Env) : RunResult :=
  match env.getDatasetErr with
  | some e => ⟨.failExit, ["error: " ++ e ++ "\n"], [], [], none⟩
  | none =>
    match metaRootOfHead env with
    | .error e =>
        ⟨.normalReturn, ["Could not unmarshal head: " ++ e ++ "\n"], [], [], none⟩
    | .ok root =>
      match sourceKind fl.stdin fl.arg0 with
      | .stdinSrc => finalize fl env (-1) [] []
      | .httpSrc =>
        let url := fl.arg0
        match env.newRequestErr with
        | some e =>
            ⟨.normalReturn,
              ["Could not build http request for url " ++ url ++ ", error: " ++ e ++ "\n"],
              [], [], none⟩
        | none =>
          let hdr := ifNoneMatchHeader root url
          match env.httpDoErr with
          | some e =>
              ⟨.normalReturn,
                ["Could not fetch url " ++ url ++ ", error: " ++ e ++ "\n"],
                [], [Effect.httpGet url hdr], none⟩
          | none =>
            let tr := [Effect.httpGet url hdr]
            if env.resp.statusCode == 304 then
              ⟨.normalReturn, [],
                ["Content unchanged since last fetch, no commit made"], tr, none⟩
            else if env.resp.statusCode / 100 == 4 || env.resp.statusCode / 100 == 5 then
              ⟨.normalReturn,
                ["Could not fetch url " ++ url ++ ", error: " ++
                  toString env.resp.statusCode ++ " (" ++ env.resp.status ++ ")\n"],
                [], tr, none⟩
            else
              let meta := [("url", url)] ++
                (if env.resp.etag != "" then [("etag", env.resp.etag)] else [])
              finalize fl env env.resp.contentLength meta tr
      | .fileSrc =>
        match env.fileOpenErr with
        | some e =>
            ⟨.normalReturn,
              ["Invalid URL " ++ fl.arg0 ++
                " - does not start with \x27http\x27 and isn\x27t local file either. fopen error: " ++ e],
              [], [], none⟩
        | none =>
          match env.fileStatErr with
          | some e =>
              ⟨.normalReturn,
                ["Could not stat file " ++ fl.arg0 ++ ": " ++ e], [], [], none⟩
          | none => finalize fl env env.fileSize [("file", fl.arg0)] []

/-- Whether a termination kind yields a non-zero process exit status:
`exit.Fail` and a `d.Chk` assertion failure do; a plain `return` from
`main` exits with status 0. -/
def nonzeroExit : Termination → Bool
  | .normalReturn => false
  | .failExit => true
  | .chkFailure _ => true

/-- The rate computation of `getStatusPrinter`:
`uint64(float64(seenLen) / elapsed.Seconds())`.  Float arithmetic is
idealized as exact rational arithmetic; the `uint64` truncating conversion
of a non-negative finite value is `Int.toNat ∘ Int.floor`.  When the
elapsed duration is zero the float division yields an infinity (or NaN for
`seenLen = 0`) and Go's conversion of it to `uint64` is
implementation-defined, modelled as `none`. -/
def goRate (seenLen : Nat) (elapsedSec : ℚ) : Option Nat :=
  if elapsedSec = 0 then none
  else some (Int.toNat ⌊(seenLen : ℚ) / elapsedSec⌋)

/-- Modelled from the spec: the rate computation as §4.4 demands it,
"Division by a zero elapsed duration must be special-cased (treat as zero
rate) rather than fault". -/
def specRate (seenLen : Nat) (elapsedSec : ℚ) : Nat :=
  if elapsedSec = 0 then 0
  else Int.toNat ⌊(seenLen : ℚ) / elapsedSec⌋

/-- The status line rendered by `getStatusPrinter`, parameterized by the
external `human.Bytes` formatter: `"%s of %s written in %ds (%s/s)..."`
with `expected` being `"(unknown)"` for a negative declared length.
Undefined (`none`) when the rate is implementation-defined. -/
def getStatusPrinter (humanBytes : Nat → String) (expectedLen : Int)
    (seenLen : Nat) (elapsedSec : ℚ) : Option String :=
  let expected := if expectedLen < 0 then "(unknown)" else humanBytes expectedLen.toNat
  (goRate seenLen elapsedSec).map fun rate =>
    humanBytes seenLen ++ " of " ++ expected ++ " written in " ++
      toString (Int.toNat ⌊elapsedSec⌋) ++ "s (" ++ humanBytes rate ++ "/s)..."

/-- When every attempted unmarshal succeeds, the unmarshal step yields the
loaded root. -/
theorem metaRootOfHead_ok (env : Env) (h : env.hasHead = true → env.unmarshalErr = none) :
    metaRootOfHead env = .ok (loadedRoot env) := by
  unfold metaRootOfHead loadedRoot
  cases hh : env.hasHead with
  | false => simp
  | true => simp [h hh]

/-- C1: for every run in HTTP mode, if the server's response status is
304 Not Modified, the run performs zero store writes (no blob
materialization, no commit, no value write), reports that the content is
unchanged, and terminates successfully (a plain return, exit status 0). -/
theorem c1_skip_on_not_modified (fl : Flags) (env : Env)
    (h1 : fl.stdin = false) (h2 : hasPrefix fl.arg0 "http" = true)
    (h3 : env.getDatasetErr = none)
    (h4 : env.hasHead = true → env.unmarshalErr = none)
    (h5 : env.newRequestErr = none) (h6 : env.httpDoErr = none)
    (h7 : env.resp.statusCode = 304) :
    storeWrites (runMain fl env).trace = [] ∧
    (runMain fl env).stdout = ["Content unchanged since last fetch, no commit made"] ∧
    (runMain fl env).term = .normalReturn ∧
    (runMain fl env).stderr = [] := by
  unfold runMain
  rw [h3, metaRootOfHead_ok env h4]
  simp [sourceKind, h1, h2, h5, h6, h7, storeWrites, Effect.isStoreWrite]

/-- Witness for C1 at a concrete input. -/
theorem c1_skip_on_not_modified_witness :
    storeWrites (runMain ⟨false, true, false, "http://example.com/data"⟩
      ⟨none, true, none, ⟨"e1", "", "http://example.com/data"⟩, none, none,
        ⟨304, "304 Not Modified", "", -1⟩, none, none, 0, none, .ok, "abc"⟩).trace = [] ∧
    (runMain ⟨false, true, false, "http://example.com/data"⟩
      ⟨none, true, none, ⟨"e1", "", "http://example.com/data"⟩, none, none,
        ⟨304, "304 Not Modified", "", -1⟩, none, none, 0, none, .ok, "abc"⟩).stdout =
      ["Content unchanged since last fetch, no commit made"] ∧
    (runMain ⟨false, true, false, "http://example.com/data"⟩
      ⟨none, true, none, ⟨"e1", "", "http://example.com/data"⟩, none, none,
        ⟨304, "304 Not Modified", "", -1⟩, none, none, 0, none, .ok, "abc"⟩).term =
      .normalReturn ∧
    (runMain ⟨false, true, false, "http://example.com/data"⟩
      ⟨none, true, none, ⟨"e1", "", "http://example.com/data"⟩, none, none,
        ⟨304, "304 Not Modified", "", -1⟩, none, none, 0, none, .ok, "abc"⟩).stderr = [] :=
  c1_skip_on_not_modified _ _ rfl (by decide) rfl (fun _ => rfl) rfl rfl rfl

/-- C10: a 304 response terminates the run as content-unchanged with no
store write even when no If-None-Match header was sent (the stored URL
differs from the requested one or no etag was recorded): the skip decision
depends only on the response status. -/
theorem c10_skip_without_header (fl : Flags) (env : Env)
    (h1 : fl.stdin = false) (h2 : hasPrefix fl.arg0 "http" = true)
    (h3 : env.getDatasetErr = none)
    (h4 : env.hasHead = true → env.unmarshalErr = none)
    (h5 : env.newRequestErr = none) (h6 : env.httpDoErr = none)
    (h7 : env.resp.statusCode = 304)
    (h8 : ifNoneMatchHeader (loadedRoot env) fl.arg0 = none) :
    (runMain fl env).trace = [Effect.httpGet fl.arg0 none] ∧
    storeWrites (runMain fl env).trace = [] ∧
    (runMain fl env).stdout = ["Content unchanged since last fetch, no commit made"] ∧
    (runMain fl env).term = .normalReturn := by
  unfold runMain
  rw [h3, metaRootOfHead_ok env h4]
  simp [sourceKind, h1, h2, h5, h6, h7, h8, storeWrites, Effect.isStoreWrite]

/-- Witness for C10 at a concrete input: the stored etag is nonempty but
recorded for a different URL, so no header is sent, and the run still
skips on 304. -/
theorem c10_skip_without_header_witness :
    (runMain ⟨false, true, false, "http://b.example/x"⟩
      ⟨none, true, none, ⟨"e1", "", "http://a.example/x"⟩, none, none,
        ⟨304, "304 Not Modified", "", -1⟩, none, none, 0, none, .ok, "abc"⟩).trace =
      [Effect.httpGet "http://b.example/x" none] ∧
    storeWrites (runMain ⟨false, true, false, "http://b.example/x"⟩
      ⟨none, true, none, ⟨"e1", "", "http://a.example/x"⟩, none, none,
        ⟨304, "304 Not Modified", "", -1⟩, none, none, 0, none, .ok, "abc"⟩).trace = [] ∧
    (runMain ⟨false, true, false, "http://b.example/x"⟩
      ⟨none, true, none, ⟨"e1", "", "http://a.example/x"⟩, none, none,
        ⟨304, "304 Not Modified", "", -1⟩, none, none, 0, none, .ok, "abc"⟩).stdout =
      ["Content unchanged since last fetch, no commit made"] ∧
    (runMain ⟨false, true, false, "http://b.example/x"⟩
      ⟨none, true, none, ⟨"e1", "", "http://a.example/x"⟩, none, none,
        ⟨304, "304 Not Modified", "", -1⟩, none, none, 0, none, .ok, "abc"⟩).term =
      .normalReturn :=
  c10_skip_without_header _ _ rfl (by decide) rfl (fun _ => rfl) rfl rfl rfl (by decide)

/-- C6: for every HTTP-mode run whose response status code is in the 4xx
or 5xx range, the run reports a fetch error carrying the URL and the
status, aborts (no further step runs, nothing on stdout), and performs no
store write. -/
theorem c6_fetch_error_aborts (fl : Flags) (env : Env)
    (h1 : fl.stdin = false) (h2 : hasPrefix fl.arg0 "http" = true)
    (h3 : env.getDatasetErr = none)
    (h4 : env.hasHead = true → env.unmarshalErr = none)
    (h5 : env.newRequestErr = none) (h6 : env.httpDoErr = none)
    (h7 : env.resp.statusCode / 100 = 4 ∨ env.resp.statusCode / 100 = 5) :
    (runMain fl env).stderr =
      ["Could not fetch url " ++ fl.arg0 ++ ", error: " ++
        toString env.resp.statusCode ++ " (" ++ env.resp.status ++ ")\n"] ∧
    storeWrites (runMain fl env).trace = [] ∧
    (runMain fl env).stdout = [] ∧
    (runMain fl env).term = .normalReturn := by
  have hne : env.resp.statusCode ≠ 304 := by
    rcases h7 with h | h <;> omega
  have h304 : (env.resp.statusCode == 304) = false := by
    simpa using hne
  have h45 : (env.resp.statusCode / 100 == 4 || env.resp.statusCode / 100 == 5) = true := by
    rcases h7 with h | h <;> simp [h]
  unfold runMain
  rw [h3, metaRootOfHead_ok env h4]
  simp [sourceKind, h1, h2, h5, h6, h304, h45, storeWrites, Effect.isStoreWrite]

/-- Witness for C6 at a concrete input (status 404). -/
theorem c6_fetch_error_aborts_witness :
    (runMain ⟨false, true, false, "http://example.com/q"⟩
      ⟨none, false, none, MetaRoot.zero, none, none,
        ⟨404, "404 Not Found", "", -1⟩, none, none, 0, none, .ok, ""⟩).stderr =
      ["Could not fetch url http://example.com/q, error: 404 (404 Not Found)\n"] ∧
    storeWrites (runMain ⟨false, true, false, "http://example.com/q"⟩
      ⟨none, false, none, MetaRoot.zero, none, none,
        ⟨404, "404 Not Found", "", -1⟩, none, none, 0, none, .ok, ""⟩).trace = [] ∧
    (runMain ⟨false, true, false, "http://example.com/q"⟩
      ⟨none, false, none, MetaRoot.zero, none, none,
        ⟨404, "404 Not Found", "", -1⟩, none, none, 0, none, .ok, ""⟩).stdout = [] ∧
    (runMain ⟨false, true, false, "http://example.com/q"⟩
      ⟨none, false, none, MetaRoot.zero, none, none,
        ⟨404, "404 Not Found", "", -1⟩, none, none, 0, none, .ok, ""⟩).term =
      .normalReturn := by
  have h := c6_fetch_error_aborts ⟨false, true, false, "http://example.com/q"⟩
    ⟨none, false, none, MetaRoot.zero, none, none,
      ⟨404, "404 Not Found", "", -1⟩, none, none, 0, none, .ok, ""⟩
    rfl (by decide) rfl (fun hh => by cases hh) rfl rfl (Or.inl (by decide))
  simpa using h

/-- C5: in every HTTP-mode run that builds its request, the GET carries an
If-None-Match precondition exactly when the stored metadata's URL equals
the requested URL and a non-empty etag was recorded; when it is sent, the
header value is the stored etag. -/
theorem c5_conditional_header (fl : Flags) (env : Env)
    (h1 : fl.stdin = false) (h2 : hasPrefix fl.arg0 "http" = true)
    (h3 : env.getDatasetErr = none)
    (h4 : env.hasHead = true → env.unmarshalErr = none)
    (h5 : env.newRequestErr = none) :
    (runMain fl env).trace.head? =
      some (.httpGet fl.arg0 (ifNoneMatchHeader (loadedRoot env) fl.arg0)) ∧
    (∀ root u, (ifNoneMatchHeader root u).isSome = true ↔
      (root.url = u ∧ root.etag ≠ "")) ∧
    (∀ root u t, ifNoneMatchHeader root u = some t → t = root.etag) := by
  refine ⟨?_, ?_, ?_⟩
  · unfold runMain
    rw [h3, metaRootOfHead_ok env h4]
    simp only [sourceKind, h1, h2, Bool.false_eq_true, if_false, if_true]
    rw [h5]
    cases hdo : env.httpDoErr with
    | some e => simp
    | none =>
      by_cases h304 : (env.resp.statusCode == 304) = true
      · simp [h304]
      · by_cases h45 : (env.resp.statusCode / 100 == 4 ||
            env.resp.statusCode / 100 == 5) = true
        · simp only [Bool.not_eq_true] at h304
          simp [h304, h45]
        · simp only [Bool.not_eq_true] at h304 h45
          simp only [h304, h45, Bool.false_eq_true, if_false]
          unfold finalize
          by_cases hc : fl.performCommit = true
          · simp only [hc, if_true]
            cases env.createMetaErr <;> cases env.commitResult <;> simp
          · simp only [Bool.not_eq_true] at hc
            simp [hc]
  · intro root u
    unfold ifNoneMatchHeader
    by_cases h : (root.url == u && root.etag != "") = true
    · rw [if_pos h]
      simp only [Bool.and_eq_true, beq_iff_eq, bne_iff_ne, ne_eq] at h
      simp [h.1, h.2]
    · rw [if_neg h]
      simp only [Bool.and_eq_true, beq_iff_eq, bne_iff_ne, ne_eq] at h
      simpa using h
  · intro root u t h
    unfold ifNoneMatchHeader at h
    by_cases hc : (root.url == u && root.etag != "") = true
    · rw [if_pos hc] at h
      exact (Option.some.inj h).symm
    · rw [if_neg hc] at h
      cases h

/-- Witness for C5 at a concrete input: stored URL matches and the etag
is non-empty, so the header carries the stored etag. -/
theorem c5_conditional_header_witness :
    (runMain ⟨false, true, false, "http://example.com/d"⟩
      ⟨none, true, none, ⟨"e9", "", "http://example.com/d"⟩, none, none,
        ⟨200, "200 OK", "", 5⟩, none, none, 0, none, .ok, "h"⟩).trace.head? =
      some (.httpGet "http://example.com/d"
        (ifNoneMatchHeader
          (loadedRoot ⟨none, true, none, ⟨"e9", "", "http://example.com/d"⟩, none, none,
            ⟨200, "200 OK", "", 5⟩, none, none, 0, none, .ok, "h"⟩)
          "http://example.com/d")) ∧
    ifNoneMatchHeader ⟨"e9", "", "http://example.com/d"⟩ "http://example.com/d" =
      some "e9" :=
  ⟨(c5_conditional_header ⟨false, true, false, "http://example.com/d"⟩
      ⟨none, true, none, ⟨"e9", "", "http://example.com/d"⟩, none, none,
        ⟨200, "200 OK", "", 5⟩, none, none, 0, none, .ok, "h"⟩
      rfl (by decide) rfl (fun _ => rfl) rfl).1,
    by decide⟩

/-- C8: the source kind is decided by the `--stdin` flag first; otherwise
the positional argument is an HTTP URL exactly when it has the literal
prefix `"http"`, and a local file path in every other case; a stdin run
reaches the finalize step with declared length `-1` ("unknown") and no
distinguishing metadata key. -/
theorem c8_source_dispatch :
    (∀ b a, sourceKind b a = .stdinSrc ↔ b = true) ∧
    (∀ b a, sourceKind b a = .httpSrc ↔ (b = false ∧ hasPrefix a "http" = true)) ∧
    (∀ b a, sourceKind b a = .fileSrc ↔ (b = false ∧ hasPrefix a "http" = false)) ∧
    (∀ fl env, fl.stdin = true → env.getDatasetErr = none →
      (env.hasHead = true → env.unmarshalErr = none) →
      runMain fl env = finalize fl env (-1) [] []) := by
  refine ⟨?_, ?_, ?_, ?_⟩
  · intro b a
    cases b <;> by_cases hs : hasPrefix a "http" = true <;>
      simp_all [sourceKind]
  · intro b a
    cases b <;> by_cases hs : hasPrefix a "http" = true <;>
      simp_all [sourceKind]
  · intro b a
    cases b <;> by_cases hs : hasPrefix a "http" = true <;>
      simp_all [sourceKind]
  · intro fl env h1 h3 h4
    unfold runMain
    rw [h3, metaRootOfHead_ok env h4]
    simp [sourceKind, h1]

/-- Witness for C8 at concrete inputs: dispatch of the three kinds, and a
concrete stdin run reaching finalize with length -1 and empty metadata. -/
theorem c8_source_dispatch_witness :
    sourceKind true "whatever" = .stdinSrc ∧
    sourceKind false "http://a" = .httpSrc ∧
    sourceKind false "/tmp/f" = .fileSrc ∧
    runMain ⟨false, true, true, "ds"⟩
      ⟨none, false, none, MetaRoot.zero, none, none, ⟨200, "", "", -1⟩,
        none, none, 0, none, .ok, "h"⟩ =
      finalize ⟨false, true, true, "ds"⟩
        ⟨none, false, none, MetaRoot.zero, none, none, ⟨200, "", "", -1⟩,
          none, none, 0, none, .ok, "h"⟩ (-1) [] [] :=
  ⟨(c8_source_dispatch.1 true "whatever").2 rfl,
    (c8_source_dispatch.2.1 false "http://a").2 ⟨rfl, by decide⟩,
    (c8_source_dispatch.2.2.1 false "/tmp/f").2 ⟨rfl, by decide⟩,
    c8_source_dispatch.2.2.2 _ _ rfl rfl (fun hh => by cases hh)⟩

/-- C9: in file mode, failure to open the path or to stat it aborts the
run with the source error printed and no store write; on success the run
reaches finalize with declared length equal to the file size and metadata
`{"file": path}`. -/
theorem c9_file_mode (fl : Flags) (env : Env)
    (h1 : fl.stdin = false) (h2 : hasPrefix fl.arg0 "http" = false)
    (h3 : env.getDatasetErr = none)
    (h4 : env.hasHead = true → env.unmarshalErr = none) :
    (∀ e, env.fileOpenErr = some e →
      (runMain fl env).stderr =
        ["Invalid URL " ++ fl.arg0 ++
          " - does not start with \x27http\x27 and isn\x27t local file either. fopen error: " ++ e] ∧
      (runMain fl env).term = .normalReturn ∧
      storeWrites (runMain fl env).trace = [] ∧
      (runMain fl env).stdout = []) ∧
    (∀ e, env.fileOpenErr = none → env.fileStatErr = some e →
      (runMain fl env).stderr = ["Could not stat file " ++ fl.arg0 ++ ": " ++ e] ∧
      (runMain fl env).term = .normalReturn ∧
      storeWrites (runMain fl env).trace = [] ∧
      (runMain fl env).stdout = []) ∧
    (env.fileOpenErr = none → env.fileStatErr = none →
      runMain fl env = finalize fl env env.fileSize [("file", fl.arg0)] []) := by
  refine ⟨?_, ?_, ?_⟩
  · intro e he
    unfold runMain
    rw [h3, metaRootOfHead_ok env h4]
    simp [sourceKind, h1, h2, he, storeWrites]
  · intro e ho hs
    unfold runMain
    rw [h3, metaRootOfHead_ok env h4]
    simp [sourceKind, h1, h2, ho, hs, storeWrites]
  · intro ho hs
    unfold runMain
    rw [h3, metaRootOfHead_ok env h4]
    simp [sourceKind, h1, h2, ho, hs]

/-- Witness for C9 at a concrete input (open failure, as in the spec's
Scenario D). -/
theorem c9_file_mode_witness :
    (runMain ⟨false, true, false, "/tmp/missing"⟩
      ⟨none, false, none, MetaRoot.zero, none, none, ⟨200, "", "", -1⟩,
        some "no such file", none, 0, none, .ok, ""⟩).stderr =
      ["Invalid URL /tmp/missing - does not start with \x27http\x27 and isn\x27t local file either. fopen error: no such file"] ∧
    (runMain ⟨false, true, false, "/tmp/missing"⟩
      ⟨none, false, none, MetaRoot.zero, none, none, ⟨200, "", "", -1⟩,
        some "no such file", none, 0, none, .ok, ""⟩).term = .normalReturn ∧
    storeWrites (runMain ⟨false, true, false, "/tmp/missing"⟩
      ⟨none, false, none, MetaRoot.zero, none, none, ⟨200, "", "", -1⟩,
        some "no such file", none, 0, none, .ok, ""⟩).trace = [] ∧
    (runMain ⟨false, true, false, "/tmp/missing"⟩
      ⟨none, false, none, MetaRoot.zero, none, none, ⟨200, "", "", -1⟩,
        some "no such file", none, 0, none, .ok, ""⟩).stdout = [] :=
  (c9_file_mode _ _ rfl (by decide) rfl (fun hh => by cases hh)).1
    "no such file" rfl

/-- C7: every run with `--commit=false` that reaches the write step leaves
the dataset's head pointer unchanged, adds only the blob materialization
and a loose value write to the store, prints the content address prefixed
with `#`, attaches no metadata (the result does not depend on the
collected metadata), and returns normally. -/
theorem c7_write_only (fl : Flags) (env : Env) (cl : Int)
    (meta : List (String × String)) (pre : List Effect)
    (h : fl.performCommit = false) (hp : headAdvanced pre = false) :
    (finalize fl env cl meta pre).term = .normalReturn ∧
    (finalize fl env cl meta pre).stdout = ["#" ++ env.blobHash ++ "\n"] ∧
    headAdvanced (finalize fl env cl meta pre).trace = false ∧
    storeWrites (finalize fl env cl meta pre).trace =
      storeWrites pre ++ [Effect.newBlob, Effect.writeValue] ∧
    finalize fl env cl meta pre = finalize fl env cl [] pre := by
  unfold finalize
  simp only [h, Bool.false_eq_true, if_false]
  refine ⟨by trivial, by trivial, ?_, ?_, by trivial⟩
  · simp only [headAdvanced, List.any_append] at hp ⊢
    simp [hp]
  · simp [storeWrites, List.filter_append, Effect.isStoreWrite]

/-- Witness for C7 at a concrete input. -/
theorem c7_write_only_witness :
    (finalize ⟨false, false, true, "ds"⟩
      ⟨none, false, none, MetaRoot.zero, none, none, ⟨200, "", "", -1⟩,
        none, none, 0, none, .ok, "deadbeef"⟩ (-1) [("url", "u")] []).term =
      .normalReturn ∧
    (finalize ⟨false, false, true, "ds"⟩
      ⟨none, false, none, MetaRoot.zero, none, none, ⟨200, "", "", -1⟩,
        none, none, 0, none, .ok, "deadbeef"⟩ (-1) [("url", "u")] []).stdout =
      ["#deadbeef\n"] ∧
    headAdvanced (finalize ⟨false, false, true, "ds"⟩
      ⟨none, false, none, MetaRoot.zero, none, none, ⟨200, "", "", -1⟩,
        none, none, 0, none, .ok, "deadbeef"⟩ (-1) [("url", "u")] []).trace = false ∧
    storeWrites (finalize ⟨false, false, true, "ds"⟩
      ⟨none, false, none, MetaRoot.zero, none, none, ⟨200, "", "", -1⟩,
        none, none, 0, none, .ok, "deadbeef"⟩ (-1) [("url", "u")] []).trace =
      storeWrites [] ++ [Effect.newBlob, Effect.writeValue] ∧
    finalize ⟨false, false, true, "ds"⟩
      ⟨none, false, none, MetaRoot.zero, none, none, ⟨200, "", "", -1⟩,
        none, none, 0, none, .ok, "deadbeef"⟩ (-1) [("url", "u")] [] =
    finalize ⟨false, false, true, "ds"⟩
      ⟨none, false, none, MetaRoot.zero, none, none, ⟨200, "", "", -1⟩,
        none, none, 0, none, .ok, "deadbeef"⟩ (-1) [] [] :=
  c7_write_only _ _ _ _ _ rfl rfl

/-- C2: in commit mode, a commit failure of the distinguished
optimistic-concurrency kind terminates the run reporting the conflict,
with a normal return and no retry, and the head is not advanced; any
other commit failure aborts the process through the `d.Chk` assertion,
carrying that failure verbatim. -/
theorem c2_commit_conflict (fl : Flags) (env : Env) (cl : Int)
    (meta : List (String × String)) (pre : List Effect)
    (h : fl.performCommit = true) (hm : env.createMetaErr = none)
    (hp : headAdvanced pre = false) :
    (env.commitResult = .mergeNeeded →
      (finalize fl env cl meta pre).stderr =
        ["Could not commit, optimistic concurrency failed."] ∧
      (finalize fl env cl meta pre).term = .normalReturn ∧
      headAdvanced (finalize fl env cl meta pre).trace = false) ∧
    (∀ e, env.commitResult = .otherErr e →
      (finalize fl env cl meta pre).term = .chkFailure e ∧
      nonzeroExit (finalize fl env cl meta pre).term = true ∧
      headAdvanced (finalize fl env cl meta pre).trace = false) := by
  constructor
  · intro hc
    unfold finalize
    simp only [h, if_true, hm, hc]
    refine ⟨by trivial, by trivial, ?_⟩
    simp only [headAdvanced, List.any_append] at hp ⊢
    simp [hp]
  · intro e hc
    unfold finalize
    simp only [h, if_true, hm, hc]
    refine ⟨by trivial, by trivial, ?_⟩
    simp only [headAdvanced, List.any_append] at hp ⊢
    simp [hp]

/-- Witness for C2 at a concrete input (conflict at commit of an HTTP
fetch). -/
theorem c2_commit_conflict_witness :
    (finalize ⟨false, true, false, "http://e/x"⟩
      ⟨none, true, none, MetaRoot.zero, none, none, ⟨200, "", "", 5⟩,
        none, none, 0, none, .mergeNeeded, "h"⟩ 5 [("url", "http://e/x")]
      [Effect.httpGet "http://e/x" none]).stderr =
      ["Could not commit, optimistic concurrency failed."] ∧
    (finalize ⟨false, true, false, "http://e/x"⟩
      ⟨none, true, none, MetaRoot.zero, none, none, ⟨200, "", "", 5⟩,
        none, none, 0, none, .mergeNeeded, "h"⟩ 5 [("url", "http://e/x")]
      [Effect.httpGet "http://e/x" none]).term = .normalReturn ∧
    headAdvanced (finalize ⟨false, true, false, "http://e/x"⟩
      ⟨none, true, none, MetaRoot.zero, none, none, ⟨200, "", "", 5⟩,
        none, none, 0, none, .mergeNeeded, "h"⟩ 5 [("url", "http://e/x")]
      [Effect.httpGet "http://e/x" none]).trace = false :=
  (c2_commit_conflict _ _ _ _ _ rfl rfl (by decide)).1 rfl

/-- Counterexample to C4: at a zero elapsed duration the code's rate
computation does not special-case to zero — the float division yields an
infinity whose integer conversion is implementation-defined, modelled as
`none`. -/
theorem c4_zero_rate_counterexample :
    goRate 1 0 ≠ some 0 ∧ goRate 1 0 = none := by
  constructor
  · simp [goRate]
  · simp [goRate]

/-- C4 as amended: the reporter performs no special-casing of a zero
elapsed duration — there the rate (and hence the rendered line) is the
implementation-defined conversion of a division by zero, not zero; for
every non-zero elapsed duration the code's rate agrees with the
spec-modelled rate and the rendered line is
`<seen> of <declared or "(unknown)"> written in <elapsed>s (<rate>/s)...`. -/
theorem c4_rate_no_special_case (s : Nat) (e : ℚ) (hb : Nat → String) (el : Int) :
    goRate s 0 = none ∧
    specRate s 0 = 0 ∧
    (e ≠ 0 → goRate s e = some (specRate s e)) ∧
    getStatusPrinter hb el s 0 = none ∧
    (e ≠ 0 → getStatusPrinter hb el s e =
      some (hb s ++ " of " ++ (if el < 0 then "(unknown)" else hb el.toNat) ++
        " written in " ++ toString (Int.toNat ⌊e⌋) ++ "s (" ++
        hb (specRate s e) ++ "/s)...")) := by
  refine ⟨by simp [goRate], by simp [specRate], ?_, ?_, ?_⟩
  · intro he
    simp [goRate, specRate, he]
  · simp [getStatusPrinter, goRate]
  · intro he
    simp [getStatusPrinter, goRate, specRate, he]

/-- Witness for the amended C4 at a concrete input: 10 bytes in 2 seconds
with a declared length of 5. -/
theorem c4_rate_no_special_case_witness :
    (2 : ℚ) ≠ 0 ∧
    goRate 10 0 = none ∧
    goRate 10 2 = some (specRate 10 2) ∧
    getStatusPrinter (fun n => toString n) 5 10 0 = none :=
  ⟨by norm_num,
    (c4_rate_no_special_case 10 2 (fun n => toString n) 5).1,
    (c4_rate_no_special_case 10 2 (fun n => toString n) 5).2.2.1 (by norm_num),
    (c4_rate_no_special_case 10 2 (fun n => toString n) 5).2.2.2.1⟩
